import Mathlib

/-!
Verification of the hw0 WebGL demo (`src/main.ts` plus its spec).

The only source file of the repository is `src/main.ts`: the GUI/controls
record, the `loadScene` routine, startup, and the per-frame `tick` loop.
The geometry classes (`Icosphere`, `Cube`, `Square`), the `Drawable` GPU
resource interface and the renderer are imported by `main.ts` but their
sources are not part of the repository snapshot, so they are modelled from
the spec where a claim needs them; each such definition carries a doc
comment starting with `Modelled from the spec:`.

Conventions of the embedding:
* TypeScript `number` values driven by the integer-stepped GUI sliders are
  embedded as `ℕ` (tessellation) and `ℚ` (color channels, which are divided
  by 255 before being handed to the renderer).
* A thrown JavaScript `TypeError` (for instance calling `.create()` on an
  `undefined` local) is embedded as `Except.error`: a tick that evaluates to
  `Except.error e` is a tick that crashed at that point, and the mutations
  performed before the crash are kept in the returned state, exactly as
  mutations of module-level variables survive an exception.
* GPU-side effects of a tick are recorded as an explicit list of `GpuOp`
  events, in program order.
-/

/-- The `controls` record of `main.ts` (lines 15-23): one mutable field per
GUI widget. The `Load Scene` button is modelled separately (`loadScene`). -/
structure Controls where
  tesselations : ℕ
  shape : String
  shaderName : String
  lambertR : ℚ
  lambertG : ℚ
  lambertB : ℚ
deriving DecidableEq

/-- Initial contents of the `controls` record (main.ts lines 15-23). -/
def initialControls : Controls :=
  { tesselations := 5
    shape := "icosphere"
    shaderName := "lambert"
    lambertR := 200
    lambertG := 25
    lambertB := 25 }

/-- A dat.GUI widget, as produced by one `gui.add(...)` call. -/
inductive Widget where
  | slider (field : String) (lo hi step : ℤ)
  | selector (field : String) (options : List String)
  | button (field : String)
deriving DecidableEq

/-- The GUI widgets registered by `main` (main.ts lines 50-57), in order:
`gui.add(controls, 'tesselations', 0, 8).step(1)`, the two selectors, the
three color sliders with `.step(1)`, and the `Load Scene` button. -/
def guiWidgets : List Widget :=
  [ Widget.slider "tesselations" 0 8 1
  , Widget.selector "shape" ["icosphere", "cube"]
  , Widget.selector "shaderName" ["lambert", "fixed gradient", "noise"]
  , Widget.slider "lambertR" 0 255 1
  , Widget.slider "lambertG" 0 255 1
  , Widget.slider "lambertB" 0 255 1
  , Widget.button "Load Scene" ]

/-- Whether a widget is a numeric slider. -/
def Widget.isSlider : Widget → Bool
  | Widget.slider _ _ _ _ => true
  | _ => false

/-- Whether a widget is an enumerated selector. -/
def Widget.isSelector : Widget → Bool
  | Widget.selector _ _ => true
  | _ => false

/-- Construction parameters of the current `icosphere` object
(`new Icosphere(vec3.fromValues(0, 0, 0), 1, level)`). -/
structure IcoParams where
  center : ℚ × ℚ × ℚ
  radius : ℚ
  level : ℕ
deriving DecidableEq

/-- The module-level mutable state of `main.ts`: the three shape objects
(identified by their construction parameters and, for the icosphere, a
generation counter distinguishing successive `new Icosphere` objects), the
GPU-buffer ownership of each, `prevTesselations` (line 28) and `time`
(line 29).

Modelled from the spec: `Drawable` (not in the sources) owns one set of GPU
buffers; per the spec's resource model the buffers are acquired lazily by
`create()` (a no-op when the object already holds its buffers) and released
by `destroy()`. `leaked` counts buffer sets still allocated on the GPU but
owned by objects that were dropped without `destroy()`. -/
structure MainState where
  ico : IcoParams
  icoGen : ℕ
  icoAlive : Bool
  cubeAlive : Bool
  squareAlive : Bool
  leaked : ℕ
  prevTesselations : ℕ
  time : ℕ
deriving DecidableEq

/-- Number of GPU buffer sets currently allocated: those owned by the live
shape objects plus those leaked by dropped objects. -/
def gpuCount (s : MainState) : ℕ :=
  s.leaked + s.icoAlive.toNat + s.cubeAlive.toNat + s.squareAlive.toNat

/-- The `loadScene` function of `main.ts` (lines 31-38): constructs a fresh
`Icosphere` at center `(0,0,0)`, radius `1`, level `controls.tesselations`,
a fresh `Square` and a fresh `Cube`, and calls `create()` on each. The old
objects are dropped without `destroy()`, so any buffers they still held
are leaked. -/
def loadScene (s : MainState) (c : Controls) : MainState :=
  { s with
    ico := ⟨(0, 0, 0), 1, c.tesselations⟩
    icoGen := s.icoGen + 1
    icoAlive := true
    cubeAlive := true
    squareAlive := true
    leaked := s.leaked + s.icoAlive.toNat + s.cubeAlive.toNat + s.squareAlive.toNat }

/-- Module state right before the initial `loadScene()` call of `main`
(main.ts line 70): no shape object exists yet (modelled as dead objects
with no buffers), `prevTesselations = 5` (line 28), `time = 0` (line 29). -/
def emptyState : MainState :=
  { ico := ⟨(0, 0, 0), 1, 0⟩
    icoGen := 0
    icoAlive := false
    cubeAlive := false
    squareAlive := false
    leaked := 0
    prevTesselations := 5
    time := 0 }

/-- Module state after `main` has run `loadScene()` (main.ts line 70) with
the initial controls, before the first `tick()`. -/
def initialState : MainState := loadScene emptyState initialControls

/-- Identity of a drawable that can be assigned to the `toDraw` local. -/
inductive DrawableId where
  | icosphere (gen : ℕ)
  | cube
  | square
deriving DecidableEq

/-- Identity of a compiled shader program (main.ts lines 78-91). -/
inductive ShaderProg where
  | lambert
  | gradient
  | noise
deriving DecidableEq

/-- GPU-side events a tick or `loadScene` can perform. `icoNew g c r l`
records `new Icosphere(c, r, l)` producing the generation-`g` object. -/
inductive GpuOp where
  | icoNew (gen : ℕ) (center : ℚ × ℚ × ℚ) (radius : ℚ) (level : ℕ)
  | icoCreate (gen : ℕ)
  | icoDestroy (gen : ℕ)
  | cubeCreate
  | cubeDestroy
  | squareCreate
deriving DecidableEq

/-- One `renderer.render(camera, shader, [toDraw], color, time)` call
(main.ts lines 134-138), with the arguments the loop passes: the selected
shader, the drawable list, the `vec4` color override and the frame counter
(the last argument). -/
structure DrawCall where
  shader : ShaderProg
  drawables : List DrawableId
  color : ℚ × ℚ × ℚ × ℚ
  time : ℕ
deriving DecidableEq

/-- How a tick can crash: `toDraw.create()` on the never-assigned `toDraw`
local (main.ts line 132), or the renderer dereferencing the never-assigned
`shader` local (main.ts line 134; the renderer body is outside the sources,
modelled from the spec: it binds the given shader, so an unset shader is
dereferenced and throws). -/
inductive TickErr where
  | undefinedDrawable
  | undefinedShader
deriving DecidableEq

/-- Result of one `tick()` call: the state after the call (including
mutations made before a crash), the GPU events in program order, and either
the issued draw call or the crash that ended the tick. -/
structure TickResult where
  state : MainState
  ops : List GpuOp
  draw : Except TickErr DrawCall

instance : DecidableEq (Except TickErr DrawCall) := fun x y =>
  match x, y with
  | Except.error a, Except.error b =>
    if h : a = b then isTrue (by rw [h]) else isFalse (by simp [h])
  | Except.error _, Except.ok _ => isFalse (by simp)
  | Except.ok _, Except.error _ => isFalse (by simp)
  | Except.ok a, Except.ok b =>
    if h : a = b then isTrue (by rw [h]) else isFalse (by simp [h])

instance : DecidableEq TickResult := fun x y => by
  cases x; cases y
  exact decidable_of_iff _ (Iff.of_eq (TickResult.mk.injEq _ _ _ _ _ _)).symm

/-- The tessellation dirty-check of `tick` (main.ts lines 99-104): when the
control differs from `prevTesselations`, update `prevTesselations`, replace
`icosphere` with a fresh object at the new level (no `destroy()` on the old
object: buffers it still held are leaked) and `create()` it. -/
def tessStage (s : MainState) (c : Controls) : MainState × List GpuOp :=
  if c.tesselations ≠ s.prevTesselations then
    ({ s with
        prevTesselations := c.tesselations
        ico := ⟨(0, 0, 0), 1, c.tesselations⟩
        icoGen := s.icoGen + 1
        icoAlive := true
        leaked := s.leaked + s.icoAlive.toNat }
    , [GpuOp.icoNew (s.icoGen + 1) (0, 0, 0) 1 c.tesselations,
       GpuOp.icoCreate (s.icoGen + 1)])
  else (s, [])

/-- The `switch(controls.shape)` statement (main.ts lines 109-118):
`'icosphere'` destroys the cube and selects the icosphere, `'cube'`
destroys the icosphere and selects the cube, anything else leaves `toDraw`
unset (`none`). -/
def shapeStage (s : MainState) (c : Controls) :
    MainState × List GpuOp × Option DrawableId :=
  if c.shape = "icosphere" then
    ({ s with cubeAlive := false }, [GpuOp.cubeDestroy],
      some (DrawableId.icosphere s.icoGen))
  else if c.shape = "cube" then
    ({ s with icoAlive := false }, [GpuOp.icoDestroy s.icoGen],
      some DrawableId.cube)
  else (s, [], none)

/-- The `switch(controls.shaderName)` statement (main.ts lines 120-130):
an unrecognized name leaves the `shader` local unset (`none`). -/
def shaderStage (c : Controls) : Option ShaderProg :=
  if c.shaderName = "lambert" then some ShaderProg.lambert
  else if c.shaderName = "fixed gradient" then some ShaderProg.gradient
  else if c.shaderName = "noise" then some ShaderProg.noise
  else none

/-- The `toDraw.create()` call (main.ts line 132) for a drawable that is
assigned. Modelled from the spec: `create` lazily (re)acquires the
drawable's GPU buffers, a no-op when they are already held. -/
def createStage (s : MainState) (d : DrawableId) : MainState × List GpuOp :=
  match d with
  | DrawableId.icosphere g => ({ s with icoAlive := true }, [GpuOp.icoCreate g])
  | DrawableId.cube => ({ s with cubeAlive := true }, [GpuOp.cubeCreate])
  | DrawableId.square => ({ s with squareAlive := true }, [GpuOp.squareCreate])

/-- One `tick()` call (main.ts lines 94-145): tessellation dirty-check,
shape dispatch, shader dispatch, `toDraw.create()`, `renderer.render(...)`,
`time++`. A crash (`Except.error`) aborts the tick at the faulting line:
later mutations (in particular `time++`) do not happen. -/
def tick (s : MainState) (c : Controls) : TickResult :=
  let t1 := tessStage s c
  let t2 := shapeStage t1.1 c
  match t2.2.2 with
  | none =>
    { state := t2.1, ops := t1.2 ++ t2.2.1
      draw := Except.error TickErr.undefinedDrawable }
  | some d =>
    let t3 := createStage t2.1 d
    match shaderStage c with
    | none =>
      { state := t3.1, ops := t1.2 ++ t2.2.1 ++ t3.2
        draw := Except.error TickErr.undefinedShader }
    | some sp =>
      { state := { t3.1 with time := t3.1.time + 1 }
        ops := t1.2 ++ t2.2.1 ++ t3.2
        draw := Except.ok
          { shader := sp
            drawables := [d]
            color := (c.lambertR / 255, c.lambertG / 255, c.lambertB / 255, 1)
            time := t3.1.time } }

/-- Run the animation loop on a list of per-frame control snapshots. A tick
that crashes ends the loop (its `requestAnimationFrame` is never reached);
the crashed tick is kept as the last trace entry. -/
def runTrace (s : MainState) : List Controls → List TickResult
  | [] => []
  | c :: cs =>
    let t := tick s c
    match t.draw with
    | Except.error _ => [t]
    | Except.ok _ => t :: runTrace t.state cs

/-- Final module state after running the loop on the given control
snapshots (again stopping after a crashed tick). -/
def runEnd (s : MainState) : List Controls → MainState
  | [] => s
  | c :: cs =>
    let t := tick s c
    match t.draw with
    | Except.error _ => t.state
    | Except.ok _ => runEnd t.state cs

/-- Number of icosphere regenerations (`new Icosphere` constructions) among
a list of GPU events. -/
def regenOps (ops : List GpuOp) : ℕ :=
  ops.countP fun o =>
    match o with
    | GpuOp.icoNew _ _ _ _ => true
    | _ => false

/-- Total icosphere regenerations over a trace. -/
def traceRegens (ts : List TickResult) : ℕ :=
  (ts.map fun t => regenOps t.ops).sum

/-- The draw calls actually issued along a trace (crashed ticks issue
none). -/
def traceDraws (ts : List TickResult) : List DrawCall :=
  ts.filterMap fun t => t.draw.toOption

/-- Shape selector values the `switch` of main.ts lines 109-118
recognizes. -/
def shapeRecognized (c : Controls) : Prop :=
  c.shape = "icosphere" ∨ c.shape = "cube"

/-- Shader selector values the `switch` of main.ts lines 120-130
recognizes. -/
def shaderRecognized (c : Controls) : Prop :=
  c.shaderName = "lambert" ∨ c.shaderName = "fixed gradient" ∨
    c.shaderName = "noise"

instance (c : Controls) : Decidable (shapeRecognized c) := by
  unfold shapeRecognized; infer_instance

instance (c : Controls) : Decidable (shaderRecognized c) := by
  unfold shaderRecognized; infer_instance

/-- The alert text of main.ts line 63. -/
def webglAlertMsg : String := "WebGL 2 not supported!"

/-- Observable effects of the startup context acquisition
(main.ts lines 59-67). -/
structure StartupTrace where
  contextRequests : ℕ
  alerts : List String
  glContextSet : Bool
deriving DecidableEq

/-- Startup context handling (main.ts lines 59-67): `getContext('webgl2')`
is called exactly once; when it yields no context the user-facing alert is
shown (once) and execution simply falls through to `setGL(gl)` with the
null context — no retry, no alternative path, and whatever runs next on the
null context is outside any guarantee. -/
def mainStartup (webgl2Supported : Bool) : StartupTrace :=
  { contextRequests := 1
    alerts := if webgl2Supported then [] else [webglAlertMsg]
    glContextSet := true }

/-!
## Icosphere generator

Modelled from the spec: the `Icosphere` class (`src/geometry/Icosphere.ts`)
is imported by `main.ts` but its source is not part of the repository
snapshot, so the generator below follows the spec's algorithm (spec section
4.1) word by word: start from the 12 vertices / 20 faces of a regular
icosahedron given by the canonical golden-ratio coordinates normalized to
unit length; repeat `L` times: for every triangle `(a,b,c)` compute the
midpoint of each edge, normalize it onto the unit sphere, reusing a cached
midpoint for a shared edge (cache keyed by the unordered pair of
source-vertex indices), and replace the triangle by the four triangles
`(a,mAB,mCA)`, `(b,mBC,mAB)`, `(c,mCA,mBC)`, `(mAB,mBC,mCA)`; finally scale
every vertex by `r` and translate by the center `C`.

The subdivision bookkeeping (vertex list, face index list, midpoint cache)
is generic in the vertex type `V` and the midpoint operation `mid`, so the
purely combinatorial facts can be evaluated on `V = Unit` while the
geometric facts use exact real coordinates.
-/

/-- A triangle mesh: vertex list plus a list of index triples. -/
structure Mesh (V : Type) where
  verts : List V
  faces : List (ℕ × ℕ × ℕ)

/-- Vertex of a mesh at an index (used only at in-range indices). -/
def vAt [Inhabited V] (vs : List V) (i : ℕ) : V := vs.getD i default

/-- Cache key of an edge: the unordered pair of its vertex indices. -/
def edgeKey (a b : ℕ) : ℕ × ℕ := (min a b, max a b)

/-- Midpoint-cache state during one subdivision pass: the growing vertex
list and the cache mapping an edge key to the index of its midpoint. -/
def MidSt (V : Type) : Type := List V × List ((ℕ × ℕ) × ℕ)

/-- Look up (or compute, append and cache) the midpoint vertex of the edge
`(a, b)`; returns its index and the updated state. -/
def getMidpoint [Inhabited V] (mid : V → V → V) (st : MidSt V) (a b : ℕ) :
    ℕ × MidSt V :=
  match st.2.lookup (edgeKey a b) with
  | some k => (k, st)
  | none =>
    (st.1.length,
      (st.1 ++ [mid (vAt st.1 a) (vAt st.1 b)], (edgeKey a b, st.1.length) :: st.2))

/-- Subdivide one triangle: fetch the three edge midpoints and append the
four replacement triangles. -/
def subTri [Inhabited V] (mid : V → V → V)
    (acc : MidSt V × List (ℕ × ℕ × ℕ)) (f : ℕ × ℕ × ℕ) :
    MidSt V × List (ℕ × ℕ × ℕ) :=
  let r1 := getMidpoint mid acc.1 f.1 f.2.1
  let r2 := getMidpoint mid r1.2 f.2.1 f.2.2
  let r3 := getMidpoint mid r2.2 f.2.2 f.1
  (r3.2,
    acc.2 ++ [(f.1, r1.1, r3.1), (f.2.1, r2.1, r1.1),
              (f.2.2, r3.1, r2.1), (r1.1, r2.1, r3.1)])

/-- One full subdivision pass over every triangle of the mesh, with a fresh
midpoint cache. -/
def subdividePass [Inhabited V] (mid : V → V → V) (m : Mesh V) : Mesh V :=
  let r := m.faces.foldl (subTri mid) ((m.verts, []), [])
  ⟨r.1.1, r.2⟩

/-- `L` subdivision passes. -/
def subdivideN [Inhabited V] (mid : V → V → V) (m : Mesh V) : ℕ → Mesh V
  | 0 => m
  | L + 1 => subdividePass mid (subdivideN mid m L)

/-- The 20 faces of the base icosahedron over its canonical 12 vertices. -/
def icoFaces : List (ℕ × ℕ × ℕ) :=
  [ (0, 11, 5), (0, 5, 1), (0, 1, 7), (0, 7, 10), (0, 10, 11)
  , (1, 5, 9), (5, 11, 4), (11, 10, 2), (10, 7, 6), (7, 1, 8)
  , (3, 9, 4), (3, 4, 2), (3, 2, 6), (3, 6, 8), (3, 8, 9)
  , (4, 9, 5), (2, 4, 11), (6, 2, 10), (8, 6, 7), (9, 8, 1) ]

/-- An element of `ℤ[φ]` (φ the golden ratio), written `(p, q) = p + q·φ`.
The raw icosahedron coordinates live in this ring, which makes the
"no antipodal edge endpoints" side conditions decidable. -/
def Zphi : Type := ℤ × ℤ

instance : DecidableEq Zphi := instDecidableEqProd
instance : Add Zphi := Prod.instAdd
instance : Zero Zphi := Prod.instZero

/-- A raw (unnormalized) icosahedron vertex: three `ℤ[φ]` coordinates. -/
def Zphi3 : Type := Zphi × Zphi × Zphi

instance : DecidableEq Zphi3 := instDecidableEqProd
instance : Add Zphi3 := Prod.instAdd
instance : Zero Zphi3 := Prod.instZero
instance : Inhabited Zphi := ⟨0⟩
instance : Inhabited Zphi3 := ⟨0⟩

/-- The canonical golden-ratio coordinates of the 12 icosahedron vertices:
`(±1, ±φ, 0)`, `(0, ±1, ±φ)`, `(±φ, 0, ±1)`. -/
def rawIcoVerts : List Zphi3 :=
  [ ((-1, 0), (0, 1), (0, 0)), ((1, 0), (0, 1), (0, 0))
  , ((-1, 0), (0, -1), (0, 0)), ((1, 0), (0, -1), (0, 0))
  , ((0, 0), (-1, 0), (0, 1)), ((0, 0), (1, 0), (0, 1))
  , ((0, 0), (-1, 0), (0, -1)), ((0, 0), (1, 0), (0, -1))
  , ((0, 1), (0, 0), (-1, 0)), ((0, 1), (0, 0), (1, 0))
  , ((0, -1), (0, 0), (-1, 0)), ((0, -1), (0, 0), (1, 0)) ]

/-- Raw vertex at an index. -/
def rawAt (i : ℕ) : Zphi3 := rawIcoVerts.getD i 0

/-- Square of `p + qφ` in `ℤ[φ]`, using `φ² = φ + 1`. -/
def zsq (p : Zphi) : Zphi := (p.1 ^ 2 + p.2 ^ 2, 2 * p.1 * p.2 + p.2 ^ 2)

/-- Squared euclidean length of a raw vertex, as an element of `ℤ[φ]`. -/
def zNormSq (v : Zphi3) : Zphi := zsq v.1 + zsq v.2.1 + zsq v.2.2

/-- Combinatorial skeleton of the generated icosphere: the same subdivision
run on contentless (`Unit`) vertices; fully computable, and agreeing with
the real generator on vertex counts and face lists (`meshShape_subdivideN`
below). -/
def skeletonN (L : ℕ) : Mesh Unit :=
  subdivideN (fun _ _ => ()) ⟨List.replicate 12 (), icoFaces⟩ L

/-- The combinatorial shape of a mesh: vertex count and face list. -/
def meshShape (m : Mesh V) : ℕ × List (ℕ × ℕ × ℕ) := (m.verts.length, m.faces)

/-- The golden ratio, `(1 + √5) / 2`. -/
noncomputable def phi : ℝ := (1 + Real.sqrt 5) / 2

/-- Value of an `ℤ[φ]` element as a real number. -/
noncomputable def zphiToR (p : Zphi) : ℝ := p.1 + p.2 * phi

/-- Exact real three-space: geometric positions of icosphere vertices. The
spec's floating-point arithmetic is idealized to exact real arithmetic, so
"distance r up to floating-point epsilon" becomes "distance exactly r". -/
abbrev E3 := EuclideanSpace ℝ (Fin 3)

noncomputable instance : Inhabited E3 := ⟨0⟩

/-- Build a vector of `E3` from coordinates. -/
noncomputable def mk3 (x y z : ℝ) : E3 := ![x, y, z]

/-- Real position of a raw icosahedron vertex. -/
noncomputable def toR3 (v : Zphi3) : E3 :=
  mk3 (zphiToR v.1) (zphiToR v.2.1) (zphiToR v.2.2)

/-- Normalize a vector onto the unit sphere (the epsilon-free unit-length
formula of the spec: divide by the euclidean norm). -/
noncomputable def nrm {F : Type} [NormedAddCommGroup F]
    [InnerProductSpace ℝ F] (x : F) : F := ‖x‖⁻¹ • x

/-- Spherical midpoint operation of the subdivision step: the edge midpoint
re-normalized onto the unit sphere. -/
noncomputable def sphMid {F : Type} [NormedAddCommGroup F]
    [InnerProductSpace ℝ F] (u v : F) : F := nrm ((1 / 2 : ℝ) • (u + v))

/-- The 12 unit-sphere vertices of the base icosahedron: the canonical
golden-ratio coordinates normalized to unit length. -/
noncomputable def baseVerts : List E3 := rawIcoVerts.map fun v => nrm (toR3 v)

/-- The base icosahedron mesh (level 0). -/
noncomputable def baseIcosahedron : Mesh E3 := ⟨baseVerts, icoFaces⟩

/-- The generated icosphere at center `C`, radius `r`, subdivision level
`L`: subdivide the unit icosahedron `L` times, then scale each vertex by
`r` and translate by `C`. -/
noncomputable def icosphereMesh (C : E3) (r : ℝ) (L : ℕ) : Mesh E3 :=
  ⟨(subdivideN sphMid baseIcosahedron L).verts.map (fun u => C + r • u),
   (subdivideN sphMid baseIcosahedron L).faces⟩

/-- `GrowsFrom q p`: the list `q` is `p` with some suffix appended (the
vertex list only ever grows by appending during a pass). -/
def GrowsFrom {V : Type} (q p : List V) : Prop := ∃ t, q = p ++ t

/-- A face is good relative to a vertex list when its indices are in range
and no edge of it joins two antipodal vertices (their sum is nonzero: the
condition under which the next midpoint normalization is well defined). -/
def goodFace {F : Type} [NormedAddCommGroup F] [InnerProductSpace ℝ F]
    [Inhabited F] (vs : List F) (f : ℕ × ℕ × ℕ) : Prop :=
  f.1 < vs.length ∧ f.2.1 < vs.length ∧ f.2.2 < vs.length ∧
    vAt vs f.1 + vAt vs f.2.1 ≠ 0 ∧
    vAt vs f.2.1 + vAt vs f.2.2 ≠ 0 ∧
    vAt vs f.2.2 + vAt vs f.1 ≠ 0

/-- A mesh is good when every vertex is on the unit sphere and every face
is good. -/
def goodMesh {F : Type} [NormedAddCommGroup F] [InnerProductSpace ℝ F]
    [Inhabited F] (m : Mesh F) : Prop :=
  (∀ v ∈ m.verts, ‖v‖ = 1) ∧ ∀ f ∈ m.faces, goodFace m.verts f

/-- Invariant of the midpoint-cache state relative to the pre-pass vertex
list `vs0`: the vertex list extends `vs0`, all vertices are unit, and
every cache entry records a well-formed unit-sphere midpoint of an edge of
`vs0`. -/
structure CacheInv {F : Type} [NormedAddCommGroup F] [InnerProductSpace ℝ F]
    [Inhabited F] (vs0 : List F) (p : MidSt F) : Prop where
  grows : GrowsFrom p.1 vs0
  units : ∀ v ∈ p.1, ‖v‖ = 1
  entries : ∀ e ∈ p.2, e.1.1 < vs0.length ∧ e.1.2 < vs0.length ∧
    e.2 < p.1.length ∧
    vAt p.1 e.2 = sphMid (vAt vs0 e.1.1) (vAt vs0 e.1.2) ∧
    vAt vs0 e.1.1 + vAt vs0 e.1.2 ≠ 0

/-- Invariant of the whole fold accumulator during a pass: cache invariant
plus goodness of all faces emitted so far. -/
def PassInv {F : Type} [NormedAddCommGroup F] [InnerProductSpace ℝ F]
    [Inhabited F] (vs0 : List F) (acc : MidSt F × List (ℕ × ℕ × ℕ)) : Prop :=
  CacheInv vs0 acc.1 ∧ ∀ f ∈ acc.2, goodFace acc.1.1 f

/-- Decidable well-formedness of a base face: indices in range and no edge
joining two antipodal raw vertices (checked exactly in `ℤ[φ]`). -/
def baseFaceOK (f : ℕ × ℕ × ℕ) : Bool :=
  decide (f.1 < 12) && decide (f.2.1 < 12) && decide (f.2.2 < 12) &&
    decide (rawAt f.1 + rawAt f.2.1 ≠ 0) &&
    decide (rawAt f.2.1 + rawAt f.2.2 ≠ 0) &&
    decide (rawAt f.2.2 + rawAt f.1 ≠ 0)

/-!
## Helper lemmas: list access and growth
-/

lemma growsFrom_refl {V : Type} (p : List V) : GrowsFrom p p := ⟨[], by simp⟩

lemma growsFrom_trans {V : Type} {r q p : List V} (h1 : GrowsFrom r q)
    (h2 : GrowsFrom q p) : GrowsFrom r p := by
  obtain ⟨t1, rfl⟩ := h1
  obtain ⟨t2, rfl⟩ := h2
  exact ⟨t2 ++ t1, by simp⟩

lemma growsFrom_append {V : Type} (p t : List V) : GrowsFrom (p ++ t) p :=
  ⟨t, rfl⟩

lemma growsFrom_length_le {V : Type} {q p : List V} (h : GrowsFrom q p) :
    p.length ≤ q.length := by
  obtain ⟨t, rfl⟩ := h
  simp

lemma growsFrom_mem {V : Type} {q p : List V} (h : GrowsFrom q p) {x : V}
    (hx : x ∈ p) : x ∈ q := by
  obtain ⟨t, rfl⟩ := h
  exact List.mem_append_left _ hx

lemma vAt_grows {V : Type} [Inhabited V] {q p : List V} (h : GrowsFrom q p)
    {i : ℕ} (hi : i < p.length) : vAt q i = vAt p i := by
  obtain ⟨t, rfl⟩ := h
  unfold vAt
  rw [List.getD_eq_getElem?_getD, List.getD_eq_getElem?_getD,
    List.getElem?_append_left hi]

lemma vAt_mem {V : Type} [Inhabited V] {p : List V} {i : ℕ}
    (hi : i < p.length) : vAt p i ∈ p := by
  unfold vAt
  rw [List.getD_eq_getElem?_getD, List.getElem?_eq_getElem hi]
  exact List.getElem_mem hi

lemma vAt_concat_self {V : Type} [Inhabited V] (p : List V) (x : V) :
    vAt (p ++ [x]) p.length = x := by
  unfold vAt
  rw [List.getD_eq_getElem?_getD, List.getElem?_concat_length]
  rfl

lemma goodFace_grows {F : Type} [NormedAddCommGroup F]
    [InnerProductSpace ℝ F] [Inhabited F] {q p : List F} (h : GrowsFrom q p)
    {f : ℕ × ℕ × ℕ} (hf : goodFace p f) : goodFace q f := by
  obtain ⟨h1, h2, h3, h4, h5, h6⟩ := hf
  refine ⟨lt_of_lt_of_le h1 (growsFrom_length_le h),
    lt_of_lt_of_le h2 (growsFrom_length_le h),
    lt_of_lt_of_le h3 (growsFrom_length_le h), ?_, ?_, ?_⟩
  · rwa [vAt_grows h h1, vAt_grows h h2]
  · rwa [vAt_grows h h2, vAt_grows h h3]
  · rwa [vAt_grows h h3, vAt_grows h h1]

/-!
## Helper lemmas: normalization onto the unit sphere
-/

section NrmLemmas

variable {F : Type} [NormedAddCommGroup F] [InnerProductSpace ℝ F]

open RealInnerProductSpace

lemma nrm_norm {x : F} (hx : x ≠ 0) : ‖nrm x‖ = 1 := by
  unfold nrm
  rw [norm_smul, norm_inv, norm_norm]
  exact inv_mul_cancel₀ (norm_ne_zero_iff.mpr hx)

lemma nrm_smul_pos {c : ℝ} (hc : 0 < c) (x : F) : nrm (c • x) = nrm x := by
  unfold nrm
  rw [norm_smul, Real.norm_eq_abs, abs_of_pos hc, smul_smul, mul_inv,
    mul_comm c⁻¹ ‖x‖⁻¹, mul_assoc, inv_mul_cancel₀ hc.ne', mul_one]

lemma smul_norm_nrm {x : F} (hx : x ≠ 0) : ‖x‖ • nrm x = x := by
  unfold nrm
  rw [smul_smul, mul_inv_cancel₀ (norm_ne_zero_iff.mpr hx), one_smul]

lemma sphMid_eq_nrm (u v : F) : sphMid u v = nrm (u + v) := by
  unfold sphMid
  exact nrm_smul_pos (by norm_num) _

lemma sphMid_comm (u v : F) : sphMid u v = sphMid v u := by
  rw [sphMid_eq_nrm, sphMid_eq_nrm, add_comm]

lemma sphMid_norm {u v : F} (huv : u + v ≠ 0) : ‖sphMid u v‖ = 1 := by
  rw [sphMid_eq_nrm]
  exact nrm_norm huv

lemma vert_add_nrm_ne_zero {u v : F} (hu : ‖u‖ = 1) (hv : ‖v‖ = 1)
    (huv : u + v ≠ 0) : u + nrm (u + v) ≠ 0 := by
  intro h
  have hspos : 0 < ‖u + v‖ := norm_pos_iff.mpr huv
  have h1 : nrm (u + v) = -u := eq_neg_of_add_eq_zero_right h
  have h2 : u + v = ‖u + v‖ • (-u) := by
    rw [← h1, smul_norm_nrm huv]
  obtain ⟨s, hs1, hs2⟩ : ∃ s : ℝ, 0 < s ∧ u + v = s • (-u) :=
    ⟨‖u + v‖, hspos, h2⟩
  have h4 : v = -((1 + s) • u) := by
    have h3 : u + v = -(s • u) := by rwa [smul_neg] at hs2
    calc v = (u + v) - u := by abel
    _ = -(s • u) - u := by rw [h3]
    _ = -((1 + s) • u) := by rw [add_smul, one_smul]; abel
  have h5 : ‖v‖ = (1 + s) * ‖u‖ := by
    rw [h4, norm_neg, norm_smul, Real.norm_eq_abs,
      abs_of_pos (show (0:ℝ) < 1 + s by linarith)]
  rw [hu, hv, mul_one] at h5
  have h6 : s = 0 := by linarith
  rw [h6, zero_smul] at hs2
  exact huv (by rw [hs2])

lemma nrm_add_nrm_ne_zero {u v w : F} (hu : ‖u‖ = 1) (hv : ‖v‖ = 1)
    (hw : ‖w‖ = 1) (huv : u + v ≠ 0) (hvw : v + w ≠ 0) :
    nrm (u + v) + nrm (v + w) ≠ 0 := by
  intro h
  have hs : 0 < ‖u + v‖ := norm_pos_iff.mpr huv
  have ht : 0 < ‖v + w‖ := norm_pos_iff.mpr hvw
  have h1 : ‖v + w‖ • (u + v) + ‖u + v‖ • (v + w) = 0 := by
    have h2 : (‖u + v‖ * ‖v + w‖) • (nrm (u + v) + nrm (v + w)) =
        ‖v + w‖ • (u + v) + ‖u + v‖ • (v + w) := by
      unfold nrm
      rw [smul_add, smul_smul, smul_smul]
      congr 1
      · rw [show ‖u + v‖ * ‖v + w‖ * ‖u + v‖⁻¹ = ‖v + w‖ by
          field_simp]
      · rw [show ‖u + v‖ * ‖v + w‖ * ‖v + w‖⁻¹ = ‖u + v‖ by
          field_simp]
    rw [h, smul_zero] at h2
    exact h2.symm
  have h3 : ⟪‖v + w‖ • (u + v) + ‖u + v‖ • (v + w), v⟫ = 0 := by
    rw [h1, inner_zero_left]
  have hvv : ⟪v, v⟫ = 1 := by
    rw [real_inner_self_eq_norm_sq, hv]; norm_num
  simp only [inner_add_left, real_inner_smul_left, hvv] at h3
  have huv2 : ⟪u, v⟫ > -1 := by
    have hx : ‖u + v‖ ^ 2 = ‖u‖ ^ 2 + 2 * ⟪u, v⟫ + ‖v‖ ^ 2 :=
      norm_add_sq_real u v
    have hp : 0 < ‖u + v‖ ^ 2 := pow_pos hs 2
    rw [hu, hv] at hx
    nlinarith
  have hwv2 : ⟪w, v⟫ > -1 := by
    have hx : ‖v + w‖ ^ 2 = ‖v‖ ^ 2 + 2 * ⟪v, w⟫ + ‖w‖ ^ 2 :=
      norm_add_sq_real v w
    have hp : 0 < ‖v + w‖ ^ 2 := pow_pos ht 2
    rw [hv, hw] at hx
    rw [real_inner_comm]
    nlinarith
  nlinarith [h3, huv2, hwv2, hs, ht]

lemma sphMid_edge_a {u v : F} (hu : ‖u‖ = 1) (hv : ‖v‖ = 1)
    (huv : u + v ≠ 0) : u + sphMid u v ≠ 0 := by
  rw [sphMid_eq_nrm]
  exact vert_add_nrm_ne_zero hu hv huv

lemma sphMid_edge_b {u v w : F} (hu : ‖u‖ = 1) (hv : ‖v‖ = 1) (hw : ‖w‖ = 1)
    (huv : u + v ≠ 0) (hvw : v + w ≠ 0) : sphMid u v + sphMid v w ≠ 0 := by
  rw [sphMid_eq_nrm, sphMid_eq_nrm]
  exact nrm_add_nrm_ne_zero hu hv hw huv hvw

end NrmLemmas

/-!
## Helper lemmas: the midpoint cache and one subdivision pass
-/

section MidSpec

variable {F : Type} [NormedAddCommGroup F] [InnerProductSpace ℝ F] [Inhabited F]

lemma lookup_mem {l : List ((ℕ × ℕ) × ℕ)} {k : ℕ × ℕ} {v : ℕ}
    (h : l.lookup k = some v) : (k, v) ∈ l := by
  rw [List.lookup_eq_some_iff] at h
  obtain ⟨l₁, l₂, rfl, -⟩ := h
  simp

lemma sphMid_minmax (vs0 : List F) (a b : ℕ) :
    sphMid (vAt vs0 (min a b)) (vAt vs0 (max a b)) =
      sphMid (vAt vs0 a) (vAt vs0 b) := by
  rcases le_total a b with h | h
  · rw [min_eq_left h, max_eq_right h]
  · rw [min_eq_right h, max_eq_left h, sphMid_comm]

lemma getMid_spec (vs0 : List F) (p : MidSt F) (a b : ℕ)
    (hInv : CacheInv vs0 p) (ha : a < vs0.length) (hb : b < vs0.length)
    (hab : vAt vs0 a + vAt vs0 b ≠ 0) :
    CacheInv vs0 (getMidpoint sphMid p a b).2 ∧
    GrowsFrom (getMidpoint sphMid p a b).2.1 p.1 ∧
    (getMidpoint sphMid p a b).1 < (getMidpoint sphMid p a b).2.1.length ∧
    vAt (getMidpoint sphMid p a b).2.1 (getMidpoint sphMid p a b).1 =
      sphMid (vAt vs0 a) (vAt vs0 b) := by
  unfold getMidpoint
  cases hl : p.2.lookup (edgeKey a b) with
  | some k =>
    simp only
    have hmem := lookup_mem hl
    obtain ⟨-, -, hk, hval, -⟩ := hInv.entries _ hmem
    refine ⟨hInv, growsFrom_refl _, hk, ?_⟩
    rw [hval]
    exact sphMid_minmax vs0 a b
  | none =>
    simp only
    have hwa : vAt p.1 a = vAt vs0 a := vAt_grows hInv.grows ha
    have hwb : vAt p.1 b = vAt vs0 b := vAt_grows hInv.grows hb
    have hgrow : GrowsFrom (p.1 ++ [sphMid (vAt p.1 a) (vAt p.1 b)]) p.1 :=
      growsFrom_append _ _
    have hua : ‖vAt vs0 a‖ = 1 :=
      hInv.units _ (growsFrom_mem hInv.grows (vAt_mem ha))
    have hub : ‖vAt vs0 b‖ = 1 :=
      hInv.units _ (growsFrom_mem hInv.grows (vAt_mem hb))
    have hwval : vAt (p.1 ++ [sphMid (vAt p.1 a) (vAt p.1 b)]) p.1.length =
        sphMid (vAt vs0 a) (vAt vs0 b) := by
      rw [vAt_concat_self, hwa, hwb]
    refine ⟨⟨growsFrom_trans hgrow hInv.grows, ?_, ?_⟩, hgrow, by simp, hwval⟩
    · intro v hv
      rcases List.mem_append.mp hv with hv | hv
      · exact hInv.units v hv
      · rw [List.mem_singleton.mp hv, hwa, hwb]
        exact sphMid_norm hab
    · intro e he
      rcases List.mem_cons.mp he with rfl | he
      · refine ⟨lt_of_le_of_lt (min_le_left a b) ha, max_lt ha hb,
          by simp, ?_, ?_⟩
        · rw [hwval]
          exact (sphMid_minmax vs0 a b).symm
        · rw [show edgeKey a b = (min a b, max a b) from rfl]
          rcases le_total a b with h | h
          · simpa [min_eq_left h, max_eq_right h] using hab
          · rw [min_eq_right h, max_eq_left h, add_comm]
            simpa using hab
      · obtain ⟨h1, h2, h3, h4, h5⟩ := hInv.entries e he
        exact ⟨h1, h2, lt_of_lt_of_le h3 (growsFrom_length_le hgrow),
          by rw [vAt_grows hgrow h3]; exact h4, h5⟩

end MidSpec

section TriSpec

variable {F : Type} [NormedAddCommGroup F] [InnerProductSpace ℝ F] [Inhabited F]

lemma subTri_inv (vs0 : List F) (acc : MidSt F × List (ℕ × ℕ × ℕ))
    (f : ℕ × ℕ × ℕ) (hInv : PassInv vs0 acc) (hf : goodFace vs0 f) :
    PassInv vs0 (subTri sphMid acc f) ∧
      GrowsFrom (subTri sphMid acc f).1.1 acc.1.1 := by
  obtain ⟨ha, hb, hc, hab, hbc, hca⟩ := hf
  obtain ⟨hc1, hg1, hk1, hv1⟩ :=
    getMid_spec vs0 acc.1 f.1 f.2.1 hInv.1 ha hb hab
  obtain ⟨hc2, hg2, hk2, hv2⟩ :=
    getMid_spec vs0 _ f.2.1 f.2.2 hc1 hb hc hbc
  obtain ⟨hc3, hg3, hk3, hv3⟩ :=
    getMid_spec vs0 _ f.2.2 f.1 hc2 hc ha hca
  -- abbreviations
  set st1 := (getMidpoint sphMid acc.1 f.1 f.2.1).2 with hst1
  set k1 := (getMidpoint sphMid acc.1 f.1 f.2.1).1 with hk1d
  set st2 := (getMidpoint sphMid st1 f.2.1 f.2.2).2 with hst2
  set k2 := (getMidpoint sphMid st1 f.2.1 f.2.2).1 with hk2d
  set st3 := (getMidpoint sphMid st2 f.2.2 f.1).2 with hst3
  set k3 := (getMidpoint sphMid st2 f.2.2 f.1).1 with hk3d
  have g32 : GrowsFrom st3.1 st2.1 := hg3
  have g21 : GrowsFrom st2.1 st1.1 := hg2
  have g31 : GrowsFrom st3.1 st1.1 := growsFrom_trans g32 g21
  have g3acc : GrowsFrom st3.1 acc.1.1 := growsFrom_trans g31 hg1
  -- index bounds in st3
  have hfa3 : f.1 < st3.1.length :=
    lt_of_lt_of_le ha (growsFrom_length_le hc3.grows)
  have hfb3 : f.2.1 < st3.1.length :=
    lt_of_lt_of_le hb (growsFrom_length_le hc3.grows)
  have hfc3 : f.2.2 < st3.1.length :=
    lt_of_lt_of_le hc (growsFrom_length_le hc3.grows)
  have hk1_2 : k1 < st2.1.length :=
    lt_of_lt_of_le hk1 (growsFrom_length_le g21)
  have hk1_3 : k1 < st3.1.length :=
    lt_of_lt_of_le hk1_2 (growsFrom_length_le g32)
  have hk2_3 : k2 < st3.1.length :=
    lt_of_lt_of_le hk2 (growsFrom_length_le g32)
  -- vertex values in st3
  have hva : vAt st3.1 f.1 = vAt vs0 f.1 := vAt_grows hc3.grows ha
  have hvb : vAt st3.1 f.2.1 = vAt vs0 f.2.1 := vAt_grows hc3.grows hb
  have hvc : vAt st3.1 f.2.2 = vAt vs0 f.2.2 := vAt_grows hc3.grows hc
  have hm1 : vAt st3.1 k1 = sphMid (vAt vs0 f.1) (vAt vs0 f.2.1) := by
    rw [vAt_grows g32 hk1_2, vAt_grows g21 hk1, hv1]
  have hm2 : vAt st3.1 k2 = sphMid (vAt vs0 f.2.1) (vAt vs0 f.2.2) := by
    rw [vAt_grows g32 hk2, hv2]
  have hm3 : vAt st3.1 k3 = sphMid (vAt vs0 f.2.2) (vAt vs0 f.1) := hv3
  -- unit norms of the corner vertices
  have hua : ‖vAt vs0 f.1‖ = 1 :=
    hc3.units _ (growsFrom_mem hc3.grows (vAt_mem ha))
  have hub : ‖vAt vs0 f.2.1‖ = 1 :=
    hc3.units _ (growsFrom_mem hc3.grows (vAt_mem hb))
  have huc : ‖vAt vs0 f.2.2‖ = 1 :=
    hc3.units _ (growsFrom_mem hc3.grows (vAt_mem hc))
  -- commuted sum conditions
  have hba : vAt vs0 f.2.1 + vAt vs0 f.1 ≠ 0 := by rwa [add_comm]
  have hcb : vAt vs0 f.2.2 + vAt vs0 f.2.1 ≠ 0 := by rwa [add_comm]
  have hac : vAt vs0 f.1 + vAt vs0 f.2.2 ≠ 0 := by rwa [add_comm]
  constructor
  · constructor
    · show CacheInv vs0 st3
      exact hc3
    · intro g hg
      show goodFace st3.1 g
      rw [show (subTri sphMid acc f).2 =
          acc.2 ++ [(f.1, k1, k3), (f.2.1, k2, k1),
            (f.2.2, k3, k2), (k1, k2, k3)] from rfl] at hg
      rcases List.mem_append.mp hg with hg | hg
      · exact goodFace_grows g3acc (hInv.2 g hg)
      · simp only [List.mem_cons, List.not_mem_nil, or_false] at hg
        rcases hg with rfl | rfl | rfl | rfl
        · refine ⟨hfa3, hk1_3, hk3, ?_, ?_, ?_⟩
          · rw [hva, hm1]
            exact sphMid_edge_a hua hub hab
          · rw [hm1, hm3, sphMid_comm (vAt vs0 f.1), sphMid_comm (vAt vs0 f.2.2)]
            exact sphMid_edge_b hub hua huc hba hac
          · rw [hm3, hva, add_comm, sphMid_comm]
            exact sphMid_edge_a hua huc hac
        · refine ⟨hfb3, hk2_3, hk1_3, ?_, ?_, ?_⟩
          · rw [hvb, hm2]
            exact sphMid_edge_a hub huc hbc
          · rw [hm2, hm1, sphMid_comm (vAt vs0 f.2.1), sphMid_comm (vAt vs0 f.1)]
            exact sphMid_edge_b huc hub hua hcb hba
          · rw [hm1, hvb, add_comm, sphMid_comm]
            exact sphMid_edge_a hub hua hba
        · refine ⟨hfc3, hk3, hk2_3, ?_, ?_, ?_⟩
          · rw [hvc, hm3]
            exact sphMid_edge_a huc hua hca
          · rw [hm3, hm2, sphMid_comm (vAt vs0 f.2.2) (vAt vs0 f.1),
              sphMid_comm (vAt vs0 f.2.1)]
            exact sphMid_edge_b hua huc hub hac hcb
          · rw [hm2, hvc, add_comm, sphMid_comm]
            exact sphMid_edge_a huc hub hcb
        · refine ⟨hk1_3, hk2_3, hk3, ?_, ?_, ?_⟩
          · rw [hm1, hm2]
            exact sphMid_edge_b hua hub huc hab hbc
          · rw [hm2, hm3]
            exact sphMid_edge_b hub huc hua hbc hca
          · rw [hm3, hm1]
            exact sphMid_edge_b huc hua hub hca hab
  · show GrowsFrom st3.1 acc.1.1
    exact g3acc

end TriSpec

section PassSpec

variable {F : Type} [NormedAddCommGroup F] [InnerProductSpace ℝ F] [Inhabited F]

lemma foldl_subTri_inv (vs0 : List F) :
    ∀ (fs : List (ℕ × ℕ × ℕ)) (acc : MidSt F × List (ℕ × ℕ × ℕ)),
      PassInv vs0 acc → (∀ f ∈ fs, goodFace vs0 f) →
      PassInv vs0 (fs.foldl (subTri sphMid) acc)
  | [], acc, hInv, _ => hInv
  | f :: fs, acc, hInv, hfs => by
    rw [List.foldl_cons]
    exact foldl_subTri_inv vs0 fs _
      (subTri_inv vs0 acc f hInv (hfs f (List.mem_cons_self f fs))).1
      fun g hg => hfs g (List.mem_cons_of_mem f hg)

lemma subdividePass_good {m : Mesh F} (hm : goodMesh m) :
    goodMesh (subdividePass sphMid m) := by
  have h0 : PassInv m.verts ((m.verts, []), []) := by
    refine ⟨⟨growsFrom_refl _, hm.1, ?_⟩, ?_⟩
    · intro e he
      simp at he
    · intro g hg
      simp at hg
  have h1 := foldl_subTri_inv m.verts m.faces ((m.verts, []), []) h0 hm.2
  exact ⟨h1.1.units, h1.2⟩

lemma subdivideN_good {m : Mesh F} (hm : goodMesh m) (L : ℕ) :
    goodMesh (subdivideN sphMid m L) := by
  induction L with
  | zero => exact hm
  | succ L ih => exact subdividePass_good ih

end PassSpec

section ShapeSim

variable {V : Type} {W : Type} [Inhabited V] [Inhabited W]

lemma getMid_shape (mV : V → V → V) (mW : W → W → W) (p : MidSt V)
    (q : MidSt W) (a b : ℕ) (hlen : p.1.length = q.1.length)
    (hcache : p.2 = q.2) :
    (getMidpoint mV p a b).1 = (getMidpoint mW q a b).1 ∧
    (getMidpoint mV p a b).2.1.length = (getMidpoint mW q a b).2.1.length ∧
    (getMidpoint mV p a b).2.2 = (getMidpoint mW q a b).2.2 := by
  unfold getMidpoint
  rw [hcache]
  cases hl : q.2.lookup (edgeKey a b) with
  | some k => exact ⟨rfl, hlen, hcache⟩
  | none => exact ⟨hlen, by simp [hlen], by simp [hlen]⟩

lemma subTri_shape (mV : V → V → V) (mW : W → W → W)
    (accV : MidSt V × List (ℕ × ℕ × ℕ)) (accW : MidSt W × List (ℕ × ℕ × ℕ))
    (f : ℕ × ℕ × ℕ) (hlen : accV.1.1.length = accW.1.1.length)
    (hcache : accV.1.2 = accW.1.2) (hfaces : accV.2 = accW.2) :
    (subTri mV accV f).1.1.length = (subTri mW accW f).1.1.length ∧
    (subTri mV accV f).1.2 = (subTri mW accW f).1.2 ∧
    (subTri mV accV f).2 = (subTri mW accW f).2 := by
  obtain ⟨e1, e2, e3⟩ := getMid_shape mV mW accV.1 accW.1 f.1 f.2.1 hlen hcache
  obtain ⟨e4, e5, e6⟩ := getMid_shape mV mW _ _ f.2.1 f.2.2 e2 e3
  obtain ⟨e7, e8, e9⟩ := getMid_shape mV mW _ _ f.2.2 f.1 e5 e6
  refine ⟨e8, e9, ?_⟩
  simp only [subTri]
  rw [hfaces, e1, e4, e7]

lemma foldl_subTri_shape (mV : V → V → V) (mW : W → W → W) :
    ∀ (fs : List (ℕ × ℕ × ℕ)) (accV : MidSt V × List (ℕ × ℕ × ℕ))
      (accW : MidSt W × List (ℕ × ℕ × ℕ)),
      accV.1.1.length = accW.1.1.length → accV.1.2 = accW.1.2 →
      accV.2 = accW.2 →
      (fs.foldl (subTri mV) accV).1.1.length =
        (fs.foldl (subTri mW) accW).1.1.length ∧
      (fs.foldl (subTri mV) accV).2 = (fs.foldl (subTri mW) accW).2
  | [], accV, accW, hlen, _, hfaces => ⟨hlen, hfaces⟩
  | f :: fs, accV, accW, hlen, hcache, hfaces => by
    rw [List.foldl_cons, List.foldl_cons]
    obtain ⟨e1, e2, e3⟩ := subTri_shape mV mW accV accW f hlen hcache hfaces
    exact foldl_subTri_shape mV mW fs _ _ e1 e2 e3

lemma subdividePass_shape (mV : V → V → V) (mW : W → W → W) {m1 : Mesh V}
    {m2 : Mesh W} (h : meshShape m1 = meshShape m2) :
    meshShape (subdividePass mV m1) = meshShape (subdividePass mW m2) := by
  have hlen : m1.verts.length = m2.verts.length :=
    congrArg Prod.fst h
  have hfaces : m1.faces = m2.faces := congrArg Prod.snd h
  obtain ⟨e1, e2⟩ := foldl_subTri_shape mV mW m2.faces ((m1.verts, []), [])
    ((m2.verts, []), []) hlen rfl rfl
  simp only [subdividePass, meshShape]
  rw [hfaces, e1, e2]

lemma subdivideN_shape (mV : V → V → V) (mW : W → W → W) {m1 : Mesh V}
    {m2 : Mesh W} (h : meshShape m1 = meshShape m2) (L : ℕ) :
    meshShape (subdivideN mV m1 L) = meshShape (subdivideN mW m2 L) := by
  induction L with
  | zero => exact h
  | succ L ih => exact subdividePass_shape mV mW ih

end ShapeSim

section FaceCount

variable {V : Type} [Inhabited V]

lemma subTri_faces_len (mid : V → V → V) (acc : MidSt V × List (ℕ × ℕ × ℕ))
    (f : ℕ × ℕ × ℕ) : (subTri mid acc f).2.length = acc.2.length + 4 := by
  unfold subTri
  simp

lemma foldl_subTri_faces_len (mid : V → V → V) :
    ∀ (fs : List (ℕ × ℕ × ℕ)) (acc : MidSt V × List (ℕ × ℕ × ℕ)),
      (fs.foldl (subTri mid) acc).2.length = acc.2.length + 4 * fs.length
  | [], acc => by simp
  | f :: fs, acc => by
    rw [List.foldl_cons, foldl_subTri_faces_len mid fs _, subTri_faces_len]
    simp
    ring

lemma subdividePass_faces_len (mid : V → V → V) (m : Mesh V) :
    (subdividePass mid m).faces.length = 4 * m.faces.length := by
  unfold subdividePass
  rw [show (m.faces.foldl (subTri mid) ((m.verts, []), [])).2.length =
    ((0:ℕ) + 4 * m.faces.length) from foldl_subTri_faces_len mid m.faces _]
  simp

lemma subdivideN_faces_len (mid : V → V → V) (m : Mesh V) (L : ℕ) :
    (subdivideN mid m L).faces.length = m.faces.length * 4 ^ L := by
  induction L with
  | zero => simp [subdivideN]
  | succ L ih =>
    rw [show subdivideN mid m (L + 1) = subdividePass mid (subdivideN mid m L)
      from rfl, subdividePass_faces_len, ih]
    ring

end FaceCount

/-!
## Helper lemmas: golden ratio and the base icosahedron
-/

lemma phi_pos : 0 < phi := by
  unfold phi
  positivity

lemma phi_sq : phi ^ 2 = phi + 1 := by
  have h5 : Real.sqrt 5 ^ 2 = 5 := Real.sq_sqrt (by norm_num)
  unfold phi
  nlinarith [h5]

lemma phi_irrational : Irrational phi := by
  have h5 : Irrational (Real.sqrt 5) := by
    have := Nat.Prime.irrational_sqrt (show Nat.Prime 5 by norm_num)
    simpa using this
  have h1 : Irrational (1 + Real.sqrt 5) := by
    have := h5.nat_add 1
    simpa using this
  have h2 : Irrational ((1 + Real.sqrt 5) / 2) :=
    h1.div_nat (show (2 : ℕ) ≠ 0 by norm_num)
  unfold phi
  simpa using h2

lemma zphiToR_add (p q : Zphi) : zphiToR (p + q) = zphiToR p + zphiToR q := by
  unfold zphiToR
  rw [show (p + q).1 = p.1 + q.1 from rfl, show (p + q).2 = p.2 + q.2 from rfl]
  push_cast
  ring

lemma zphiToR_zsq (p : Zphi) : zphiToR (zsq p) = zphiToR p ^ 2 := by
  unfold zphiToR zsq
  have h := phi_sq
  push_cast
  nlinarith [h]

lemma zphiToR_ne_zero {p : Zphi} (hp : p ≠ 0) : zphiToR p ≠ 0 := by
  obtain ⟨a, b⟩ := p
  intro heq
  unfold zphiToR at heq
  by_cases hb : b = 0
  · subst hb
    have ha : a ≠ 0 := fun h0 => hp (by rw [h0]; rfl)
    rw [Int.cast_zero, zero_mul, add_zero] at heq
    exact ha (Int.cast_eq_zero.mp heq)
  · have hbR : (b : ℝ) ≠ 0 := Int.cast_ne_zero.mpr hb
    have hphi : phi = ((((-a : ℚ)) / (b : ℚ) : ℚ) : ℝ) := by
      push_cast
      field_simp at heq ⊢
      linarith [heq]
    exact phi_irrational ⟨(-a : ℚ) / (b : ℚ), hphi.symm⟩

lemma mk3_apply_zero (x y z : ℝ) : mk3 x y z 0 = x := by simp [mk3]

lemma mk3_apply_one (x y z : ℝ) : mk3 x y z 1 = y := by simp [mk3]

lemma mk3_apply_two (x y z : ℝ) : mk3 x y z 2 = z := by simp [mk3]

lemma norm_sq_mk3 (x y z : ℝ) : ‖mk3 x y z‖ ^ 2 = x ^ 2 + y ^ 2 + z ^ 2 := by
  rw [← real_inner_self_eq_norm_sq]
  simp [mk3, PiLp.inner_apply, Fin.sum_univ_three, RCLike.inner_apply]
  ring

lemma toR3_add (v w : Zphi3) : toR3 (v + w) = toR3 v + toR3 w := by
  unfold toR3
  rw [show (v + w).1 = v.1 + w.1 from rfl,
    show (v + w).2.1 = v.2.1 + w.2.1 from rfl,
    show (v + w).2.2 = v.2.2 + w.2.2 from rfl,
    zphiToR_add, zphiToR_add, zphiToR_add]
  funext i
  fin_cases i <;> simp [mk3]

lemma toR3_ne_zero {v : Zphi3} (hv : v ≠ 0) : toR3 v ≠ 0 := by
  intro heq
  have h1 : zphiToR v.1 = 0 := by
    have := congrFun heq 0
    rwa [show toR3 v 0 = zphiToR v.1 from mk3_apply_zero _ _ _,
      show (0 : E3) 0 = 0 from rfl] at this
  have h2 : zphiToR v.2.1 = 0 := by
    have := congrFun heq 1
    rwa [show toR3 v 1 = zphiToR v.2.1 from mk3_apply_one _ _ _,
      show (0 : E3) 1 = 0 from rfl] at this
  have h3 : zphiToR v.2.2 = 0 := by
    have := congrFun heq 2
    rwa [show toR3 v 2 = zphiToR v.2.2 from mk3_apply_two _ _ _,
      show (0 : E3) 2 = 0 from rfl] at this
  apply hv
  have e1 : v.1 = 0 := by
    by_contra h
    exact zphiToR_ne_zero h h1
  have e2 : v.2.1 = 0 := by
    by_contra h
    exact zphiToR_ne_zero h h2
  have e3 : v.2.2 = 0 := by
    by_contra h
    exact zphiToR_ne_zero h h3
  calc v = (v.1, v.2.1, v.2.2) := rfl
  _ = 0 := by rw [e1, e2, e3]; rfl

lemma toR3_norm_sq (v : Zphi3) : ‖toR3 v‖ ^ 2 = zphiToR (zNormSq v) := by
  unfold toR3 zNormSq
  rw [norm_sq_mk3, zphiToR_add, zphiToR_add, zphiToR_zsq, zphiToR_zsq,
    zphiToR_zsq]

lemma raw_normSq : ∀ v ∈ rawIcoVerts, zNormSq v = ((2 : ℤ), (1 : ℤ)) := by
  decide

lemma two_add_phi_pos : 0 < 2 + phi := by linarith [phi_pos]

lemma raw_norm_eq {v : Zphi3} (hv : v ∈ rawIcoVerts) :
    ‖toR3 v‖ = Real.sqrt (2 + phi) := by
  have h1 : ‖toR3 v‖ ^ 2 = 2 + phi := by
    rw [toR3_norm_sq, raw_normSq v hv]
    unfold zphiToR
    push_cast
    ring
  rw [← h1, Real.sqrt_sq (norm_nonneg _)]

lemma raw_ne_zero {v : Zphi3} (hv : v ∈ rawIcoVerts) : toR3 v ≠ 0 := by
  intro h
  have h1 : ‖toR3 v‖ ^ 2 = 2 + phi := by
    rw [toR3_norm_sq, raw_normSq v hv]
    unfold zphiToR
    push_cast
    ring
  rw [h, norm_zero] at h1
  nlinarith [two_add_phi_pos]

lemma baseVerts_units : ∀ v ∈ baseVerts, ‖v‖ = 1 := by
  intro v hv
  unfold baseVerts at hv
  obtain ⟨w, hw, rfl⟩ := List.mem_map.mp hv
  exact nrm_norm (raw_ne_zero hw)

lemma vAt_map {V W : Type} [Inhabited V] [Inhabited W] (g : V → W)
    {l : List V} {i : ℕ} (hi : i < l.length) :
    vAt (l.map g) i = g (vAt l i) := by
  unfold vAt
  rw [List.getD_eq_getElem?_getD, List.getD_eq_getElem?_getD,
    List.getElem?_map, List.getElem?_eq_getElem hi]
  rfl

lemma rawIcoVerts_length : rawIcoVerts.length = 12 := by decide

lemma baseVerts_length : baseVerts.length = 12 := by
  unfold baseVerts
  rw [List.length_map, rawIcoVerts_length]

lemma vAt_baseVerts {i : ℕ} (hi : i < 12) :
    vAt baseVerts i = nrm (toR3 (rawAt i)) := by
  unfold baseVerts
  rw [vAt_map _ (by rw [rawIcoVerts_length]; exact hi)]
  rfl

lemma rawAt_mem {i : ℕ} (hi : i < 12) : rawAt i ∈ rawIcoVerts := by
  unfold rawAt
  have hi2 : i < rawIcoVerts.length := by rw [rawIcoVerts_length]; exact hi
  rw [List.getD_eq_getElem?_getD, List.getElem?_eq_getElem hi2]
  exact List.getElem_mem hi2

lemma nrm_add_nrm_ne_zero_of_eq_norm {F : Type} [NormedAddCommGroup F]
    [InnerProductSpace ℝ F] {x y : F} (hs : ‖x‖ = ‖y‖) (hx : x ≠ 0)
    (hxy : x + y ≠ 0) : nrm x + nrm y ≠ 0 := by
  unfold nrm
  rw [← hs, ← smul_add]
  exact smul_ne_zero (inv_ne_zero (norm_ne_zero_iff.mpr hx)) hxy

lemma base_edge_ne_zero {i j : ℕ} (hi : i < 12) (hj : j < 12)
    (hij : rawAt i + rawAt j ≠ 0) :
    vAt baseVerts i + vAt baseVerts j ≠ 0 := by
  rw [vAt_baseVerts hi, vAt_baseVerts hj]
  apply nrm_add_nrm_ne_zero_of_eq_norm
  · rw [raw_norm_eq (rawAt_mem hi), raw_norm_eq (rawAt_mem hj)]
  · exact raw_ne_zero (rawAt_mem hi)
  · rw [← toR3_add]
    exact toR3_ne_zero hij

lemma icoFaces_all_ok : icoFaces.all baseFaceOK = true := by decide

lemma baseIcosahedron_good : goodMesh baseIcosahedron := by
  constructor
  · exact baseVerts_units
  · intro f hf
    have h := List.all_eq_true.mp icoFaces_all_ok f hf
    unfold baseFaceOK at h
    simp only [Bool.and_eq_true, decide_eq_true_eq] at h
    obtain ⟨⟨⟨⟨⟨h1, h2⟩, h3⟩, h4⟩, h5⟩, h6⟩ := h
    refine ⟨?_, ?_, ?_, ?_, ?_, ?_⟩
    · rw [show baseIcosahedron.verts = baseVerts from rfl, baseVerts_length]
      exact h1
    · rw [show baseIcosahedron.verts = baseVerts from rfl, baseVerts_length]
      exact h2
    · rw [show baseIcosahedron.verts = baseVerts from rfl, baseVerts_length]
      exact h3
    · exact base_edge_ne_zero h1 h2 h4
    · exact base_edge_ne_zero h2 h3 h5
    · exact base_edge_ne_zero h3 h1 h6

/-!
## Assembly lemmas for the icosphere contract
-/

lemma ico_shape_sim (L : ℕ) :
    meshShape (subdivideN sphMid baseIcosahedron L) = meshShape (skeletonN L) := by
  unfold skeletonN
  apply subdivideN_shape
  unfold meshShape baseIcosahedron
  rw [show (⟨baseVerts, icoFaces⟩ : Mesh E3).verts = baseVerts from rfl]
  rw [baseVerts_length]
  simp

lemma icosphereMesh_verts_len (C : E3) (r : ℝ) (L : ℕ) :
    (icosphereMesh C r L).verts.length = (skeletonN L).verts.length := by
  unfold icosphereMesh
  rw [show (⟨(subdivideN sphMid baseIcosahedron L).verts.map
      (fun u => C + r • u), (subdivideN sphMid baseIcosahedron L).faces⟩ :
      Mesh E3).verts = (subdivideN sphMid baseIcosahedron L).verts.map
      (fun u => C + r • u) from rfl]
  rw [List.length_map]
  exact congrArg Prod.fst (ico_shape_sim L)

lemma icosphereMesh_faces_len (C : E3) (r : ℝ) (L : ℕ) :
    (icosphereMesh C r L).faces.length = 20 * 4 ^ L := by
  unfold icosphereMesh
  rw [show (⟨(subdivideN sphMid baseIcosahedron L).verts.map
      (fun u => C + r • u), (subdivideN sphMid baseIcosahedron L).faces⟩ :
      Mesh E3).faces = (subdivideN sphMid baseIcosahedron L).faces from rfl]
  rw [subdivideN_faces_len]
  rw [show baseIcosahedron.faces.length = 20 from rfl]

lemma icosphereMesh_dist (C : E3) (r : ℝ) (hr : 0 ≤ r) (L : ℕ) :
    ∀ v ∈ (icosphereMesh C r L).verts, dist v C = r := by
  intro v hv
  unfold icosphereMesh at hv
  rw [show (⟨(subdivideN sphMid baseIcosahedron L).verts.map
      (fun u => C + r • u), (subdivideN sphMid baseIcosahedron L).faces⟩ :
      Mesh E3).verts = (subdivideN sphMid baseIcosahedron L).verts.map
      (fun u => C + r • u) from rfl] at hv
  obtain ⟨u, hu, rfl⟩ := List.mem_map.mp hv
  have hunit : ‖u‖ = 1 := (subdivideN_good baseIcosahedron_good L).1 u hu
  rw [dist_eq_norm, add_sub_cancel_left, norm_smul, Real.norm_eq_abs,
    abs_of_nonneg hr, hunit, mul_one]

set_option maxRecDepth 10000 in
lemma skeletonN_zero_verts : (skeletonN 0).verts.length = 12 := by decide

set_option maxRecDepth 10000 in
lemma skeletonN_zero_faces : (skeletonN 0).faces.length = 20 := by decide

set_option maxRecDepth 10000 in
lemma skeletonN_one_verts : (skeletonN 1).verts.length = 42 := by decide

set_option maxRecDepth 10000 in
lemma skeletonN_one_faces : (skeletonN 1).faces.length = 80 := by decide

/-!
## Helper lemmas: the frame loop
-/

lemma tessStage_eq {s : MainState} {c : Controls}
    (h : c.tesselations = s.prevTesselations) : tessStage s c = (s, []) := by
  unfold tessStage
  rw [if_neg (by simp [h])]

lemma tessStage_ne {s : MainState} {c : Controls}
    (h : c.tesselations ≠ s.prevTesselations) :
    tessStage s c =
      ({ s with
          prevTesselations := c.tesselations
          ico := ⟨(0, 0, 0), 1, c.tesselations⟩
          icoGen := s.icoGen + 1
          icoAlive := true
          leaked := s.leaked + s.icoAlive.toNat }
      , [GpuOp.icoNew (s.icoGen + 1) (0, 0, 0) 1 c.tesselations,
         GpuOp.icoCreate (s.icoGen + 1)]) := by
  unfold tessStage
  rw [if_pos h]

lemma tessStage_prevTess (s : MainState) (c : Controls) :
    (tessStage s c).1.prevTesselations = c.tesselations := by
  rcases eq_or_ne c.tesselations s.prevTesselations with h | h
  · rw [tessStage_eq h]
    exact h.symm
  · rw [tessStage_ne h]

lemma tessStage_time (s : MainState) (c : Controls) :
    (tessStage s c).1.time = s.time := by
  rcases eq_or_ne c.tesselations s.prevTesselations with h | h
  · rw [tessStage_eq h]
  · rw [tessStage_ne h]

lemma tessStage_square (s : MainState) (c : Controls) :
    (tessStage s c).1.squareAlive = s.squareAlive := by
  rcases eq_or_ne c.tesselations s.prevTesselations with h | h
  · rw [tessStage_eq h]
  · rw [tessStage_ne h]

lemma tessStage_cube (s : MainState) (c : Controls) :
    (tessStage s c).1.cubeAlive = s.cubeAlive := by
  rcases eq_or_ne c.tesselations s.prevTesselations with h | h
  · rw [tessStage_eq h]
  · rw [tessStage_ne h]

lemma tick_prevTess (s : MainState) (c : Controls) :
    (tick s c).state.prevTesselations = c.tesselations := by
  unfold tick shapeStage createStage
  by_cases h1 : c.shape = "icosphere" <;> by_cases h2 : c.shape = "cube" <;>
    rcases hsh : shaderStage c with _ | sp <;>
    simp [h1, h2, hsh, tessStage_prevTess]

lemma tick_square (s : MainState) (c : Controls) :
    (tick s c).state.squareAlive = s.squareAlive := by
  unfold tick shapeStage createStage
  by_cases h1 : c.shape = "icosphere" <;> by_cases h2 : c.shape = "cube" <;>
    rcases hsh : shaderStage c with _ | sp <;>
    simp [h1, h2, hsh, tessStage_square]

lemma tick_err_of_shape {c : Controls} (h : ¬ shapeRecognized c)
    (s : MainState) : (tick s c).draw = Except.error TickErr.undefinedDrawable := by
  unfold shapeRecognized at h
  push_neg at h
  unfold tick shapeStage
  simp [h.1, h.2]

lemma tick_err_of_shader {c : Controls} (h1 : shapeRecognized c)
    (h2 : ¬ shaderRecognized c) (s : MainState) :
    (tick s c).draw = Except.error TickErr.undefinedShader := by
  unfold shaderRecognized at h2
  push_neg at h2
  have hsh : shaderStage c = none := by
    unfold shaderStage
    simp [h2.1, h2.2.1, h2.2.2]
  unfold tick shapeStage createStage
  rcases h1 with h | h <;> simp [h, hsh]

lemma tick_ok_char {c : Controls} (h1 : shapeRecognized c)
    (h2 : shaderRecognized c) (s : MainState) :
    ∃ d, (tick s c).draw = Except.ok d ∧
      d.color = (c.lambertR / 255, c.lambertG / 255, c.lambertB / 255, 1) ∧
      d.time = s.time ∧ (tick s c).state.time = s.time + 1 := by
  obtain ⟨sp, hsp⟩ : ∃ sp, shaderStage c = some sp := by
    unfold shaderStage
    rcases h2 with h | h | h <;> simp [h]
  unfold tick shapeStage createStage
  rcases h1 with h | h <;>
    simp [h, hsp, tessStage_time]

lemma regenOps_append (xs ys : List GpuOp) :
    regenOps (xs ++ ys) = regenOps xs + regenOps ys := by
  unfold regenOps
  exact List.countP_append _ _ _

lemma tick_regen (s : MainState) (c : Controls) :
    regenOps (tick s c).ops =
      if c.tesselations = s.prevTesselations then 0 else 1 := by
  have htess : regenOps (tessStage s c).2 =
      if c.tesselations = s.prevTesselations then 0 else 1 := by
    rcases eq_or_ne c.tesselations s.prevTesselations with h | h
    · rw [tessStage_eq h, if_pos h]
      rfl
    · rw [tessStage_ne h, if_neg h]
      rfl
  unfold tick shapeStage createStage
  by_cases h1 : c.shape = "icosphere" <;> by_cases h2 : c.shape = "cube" <;>
    rcases hsh : shaderStage c with _ | sp <;>
    simp [h1, h2, hsh, regenOps_append, htess] <;>
    unfold regenOps <;> simp

lemma tick_shape_icosphere {c : Controls} (h : c.shape = "icosphere")
    (s : MainState) : (tick s c).state.icoAlive = true ∧
      (tick s c).state.cubeAlive = false := by
  unfold tick shapeStage createStage
  rcases hsh : shaderStage c with _ | sp <;> simp [h, hsh]

lemma tick_shape_cube {c : Controls} (h : c.shape = "cube") (s : MainState) :
    (tick s c).state.cubeAlive = true ∧
      (tick s c).state.icoAlive = false := by
  have h' : ¬ (c.shape = "icosphere") := by simp [h]
  unfold tick shapeStage createStage
  rcases hsh : shaderStage c with _ | sp <;> simp [h, h', hsh]

lemma tick_leaked_of_eq {s : MainState} {c : Controls}
    (h : c.tesselations = s.prevTesselations) :
    (tick s c).state.leaked = s.leaked := by
  unfold tick shapeStage createStage
  by_cases h1 : c.shape = "icosphere" <;> by_cases h2 : c.shape = "cube" <;>
    rcases hsh : shaderStage c with _ | sp <;>
    simp [h1, h2, hsh, tessStage_eq h]

lemma tick_gpuCount_valid {s : MainState} {c : Controls}
    (h1 : shapeRecognized c) (h3 : c.tesselations = s.prevTesselations) :
    gpuCount (tick s c).state = s.leaked + s.squareAlive.toNat + 1 := by
  have hleak := tick_leaked_of_eq h3
  have hsq := tick_square s c
  unfold gpuCount
  rcases h1 with h | h
  · obtain ⟨ha, hc⟩ := tick_shape_icosphere h s
    rw [hleak, hsq, ha, hc]
    simp
    ring
  · obtain ⟨ha, hc⟩ := tick_shape_cube h s
    rw [hleak, hsq, ha, hc]
    simp
    ring

lemma tick_time_of_ok {s : MainState} {c : Controls} {d : DrawCall}
    (h : (tick s c).draw = Except.ok d) :
    d.time = s.time ∧ (tick s c).state.time = s.time + 1 := by
  revert h
  unfold tick shapeStage createStage
  by_cases h1 : c.shape = "icosphere" <;> by_cases h2 : c.shape = "cube" <;>
    rcases hsh : shaderStage c with _ | sp <;>
    simp [h1, h2, hsh, tessStage_time] <;>
    intro hd <;> rw [← hd]

lemma tick_regen_detail {s : MainState} {c : Controls}
    (h : c.tesselations ≠ s.prevTesselations) :
    GpuOp.icoNew (s.icoGen + 1) (0, 0, 0) 1 c.tesselations ∈ (tick s c).ops ∧
    GpuOp.icoDestroy s.icoGen ∉ (tick s c).ops ∧
    (tick s c).state.ico = ⟨(0, 0, 0), 1, c.tesselations⟩ ∧
    (tick s c).state.leaked = s.leaked + s.icoAlive.toNat := by
  unfold tick shapeStage createStage
  by_cases h1 : c.shape = "icosphere" <;> by_cases h2 : c.shape = "cube" <;>
    rcases hsh : shaderStage c with _ | sp <;>
    simp [h1, h2, hsh, tessStage_ne h, Nat.succ_ne_self]

lemma traceRegens_zero {v : ℕ} :
    ∀ (cs : List Controls) (s : MainState), s.prevTesselations = v →
      (∀ c' ∈ cs, c'.tesselations = v) → traceRegens (runTrace s cs) = 0
  | [], s, _, _ => rfl
  | c :: cs, s, hs, hcs => by
    unfold runTrace
    have hc : c.tesselations = s.prevTesselations := by
      rw [hs]
      exact hcs c (List.mem_cons_self c cs)
    have hr : regenOps (tick s c).ops = 0 := by
      rw [tick_regen, if_pos hc]
    cases hdraw : (tick s c).draw with
    | error e =>
      simp [traceRegens, hdraw, hr]
    | ok d =>
      have hrec : traceRegens (runTrace (tick s c).state cs) = 0 :=
        traceRegens_zero cs (tick s c).state
          (by rw [tick_prevTess, hcs c (List.mem_cons_self c cs)])
          fun c' hc' => hcs c' (List.mem_cons_of_mem c hc')
      simp [traceRegens, hdraw, hr]
      unfold traceRegens at hrec
      simpa [hdraw] using hrec

lemma traceRegens_run (s : MainState) (c : Controls) (cs : List Controls)
    (hcs : ∀ c' ∈ cs, c'.tesselations = c.tesselations) :
    traceRegens (runTrace s (c :: cs)) =
      if c.tesselations = s.prevTesselations then 0 else 1 := by
  unfold runTrace
  cases hdraw : (tick s c).draw with
  | error e =>
    simp [traceRegens, hdraw, tick_regen]
  | ok d =>
    have hrec : traceRegens (runTrace (tick s c).state cs) = 0 :=
      traceRegens_zero cs (tick s c).state (tick_prevTess s c) hcs
    simp only [traceRegens, List.map_cons, List.sum_cons, hdraw]
    unfold traceRegens at hrec
    rw [hrec, tick_regen, Nat.add_zero]

lemma toOption_ok (d : DrawCall) :
    (Except.ok d : Except TickErr DrawCall).toOption = some d := rfl

lemma traceDraws_times :
    ∀ (cs : List Controls) (s : MainState),
      (traceDraws (runTrace s cs)).map DrawCall.time =
        List.range' s.time (traceDraws (runTrace s cs)).length
  | [], s => rfl
  | c :: cs, s => by
    unfold runTrace
    cases hdraw : (tick s c).draw with
    | error e =>
      simp [traceDraws, hdraw, Except.toOption]
    | ok d =>
      obtain ⟨hd, hst⟩ := tick_time_of_ok hdraw
      have ih := traceDraws_times cs (tick s c).state
      rw [hst] at ih
      simp only [traceDraws, List.filterMap_cons, hdraw, toOption_ok,
        List.map_cons, List.length_cons]
      rw [List.range'_succ, hd]
      unfold traceDraws at ih
      rw [ih]

lemma runEnd_gpu {v : ℕ} :
    ∀ (cs : List Controls) (s : MainState), cs ≠ [] →
      s.prevTesselations = v →
      (∀ c' ∈ cs, (shapeRecognized c' ∧ shaderRecognized c') ∧
        c'.tesselations = v) →
      gpuCount (runEnd s cs) = s.leaked + s.squareAlive.toNat + 1
  | [], _, hne, _, _ => absurd rfl hne
  | c :: cs, s, _, hs, hcs => by
    have hc := hcs c (List.mem_cons_self c cs)
    have htess : c.tesselations = s.prevTesselations := by rw [hs]; exact hc.2
    obtain ⟨d, hdraw, -⟩ := tick_ok_char hc.1.1 hc.1.2 s
    show gpuCount (match (tick s c).draw with
      | Except.error _ => (tick s c).state
      | Except.ok _ => runEnd (tick s c).state cs) =
      s.leaked + s.squareAlive.toNat + 1
    rw [hdraw]
    cases cs with
    | nil =>
      rw [show runEnd (tick s c).state [] = (tick s c).state from rfl]
      exact tick_gpuCount_valid hc.1.1 htess
    | cons c' cs' =>
      have hrec := runEnd_gpu (c' :: cs') (tick s c).state (by simp)
        (by rw [tick_prevTess]; exact hc.2)
        fun x hx => hcs x (List.mem_cons_of_mem c hx)
      rw [hrec, tick_leaked_of_eq htess, tick_square]

/-!
## Claim theorems
-/

/-- C1, counterexample: with the unrecognized shape selector value
`"triangle"` the claim's hypothesis holds, yet the tick does not complete:
`toDraw` is left unset and `toDraw.create()` (main.ts line 132) throws, so
the tick ends in an error rather than finishing crash-free. -/
theorem c1_counterexample :
    ¬ shapeRecognized
      { tesselations := 5, shape := "triangle", shaderName := "lambert",
        lambertR := 200, lambertG := 25, lambertB := 25 } ∧
    (tick initialState
      { tesselations := 5, shape := "triangle", shaderName := "lambert",
        lambertR := 200, lambertG := 25, lambertB := 25 }).draw =
      Except.error TickErr.undefinedDrawable := by
  decide

/-- C1, amended: on every frame tick in which the shape selector or shader
selector holds a value outside the recognized sets, the drawable/shader for
that frame is left unset and no draw call is issued, but the tick does not
complete cleanly: it throws when the unset drawable (at `toDraw.create()`)
or the unset shader (inside the renderer call) is dereferenced. -/
theorem c1_unrecognized_selector_crashes (s : MainState) (c : Controls)
    (h : ¬ shapeRecognized c ∨ ¬ shaderRecognized c) :
    (∃ e, (tick s c).draw = Except.error e) ∧
      ∀ d, (tick s c).draw ≠ Except.ok d := by
  have herr : ∃ e, (tick s c).draw = Except.error e := by
    rcases h with h | h
    · exact ⟨_, tick_err_of_shape h s⟩
    · by_cases h1 : shapeRecognized c
      · exact ⟨_, tick_err_of_shader h1 h s⟩
      · exact ⟨_, tick_err_of_shape h1 s⟩
  refine ⟨herr, ?_⟩
  obtain ⟨e, he⟩ := herr
  intro d hd
  rw [he] at hd
  cases hd

/-- C1, witness for the amended theorem at a concrete unrecognized shape. -/
theorem c1_unrecognized_selector_crashes_witness :
    (∃ e, (tick initialState
      { tesselations := 5, shape := "sphere", shaderName := "noise",
        lambertR := 0, lambertG := 0, lambertB := 0 }).draw =
        Except.error e) ∧
      ∀ d, (tick initialState
        { tesselations := 5, shape := "sphere", shaderName := "noise",
          lambertR := 0, lambertG := 0, lambertB := 0 }).draw ≠
        Except.ok d :=
  c1_unrecognized_selector_crashes initialState _ (Or.inl (by decide))

/-- C2: over any run of ticks whose tessellation control is constant, the
first tick regenerates the icosphere exactly when the control differs from
`prevTesselations`, and the whole run performs exactly that one
regeneration (none at all when the control equals the previously rendered
value). -/
theorem c2_tessellation_regen_once (s : MainState) (c : Controls)
    (cs : List Controls)
    (hcs : ∀ c' ∈ cs, c'.tesselations = c.tesselations) :
    regenOps (tick s c).ops =
      (if c.tesselations = s.prevTesselations then 0 else 1) ∧
    traceRegens (runTrace s (c :: cs)) =
      (if c.tesselations = s.prevTesselations then 0 else 1) :=
  ⟨tick_regen s c, traceRegens_run s c cs hcs⟩

/-- C2, witness: changing the slider from 5 to 3 and holding it there for
three frames regenerates exactly once. -/
theorem c2_tessellation_regen_once_witness :
    regenOps (tick initialState
      { tesselations := 3, shape := "icosphere", shaderName := "lambert",
        lambertR := 200, lambertG := 25, lambertB := 25 }).ops = 1 ∧
    traceRegens (runTrace initialState
      ({ tesselations := 3, shape := "icosphere", shaderName := "lambert",
         lambertR := 200, lambertG := 25, lambertB := 25 } ::
       [{ tesselations := 3, shape := "icosphere", shaderName := "lambert",
          lambertR := 200, lambertG := 25, lambertB := 25 },
        { tesselations := 3, shape := "icosphere", shaderName := "lambert",
          lambertR := 200, lambertG := 25, lambertB := 25 }])) = 1 := by
  have h := c2_tessellation_regen_once initialState
    { tesselations := 3, shape := "icosphere", shaderName := "lambert",
      lambertR := 200, lambertG := 25, lambertB := 25 }
    [{ tesselations := 3, shape := "icosphere", shaderName := "lambert",
       lambertR := 200, lambertG := 25, lambertB := 25 },
     { tesselations := 3, shape := "icosphere", shaderName := "lambert",
       lambertR := 200, lambertG := 25, lambertB := 25 }] (by decide)
  rwa [if_neg (by decide)] at h

/-- C3, counterexample: on the tick that changes tessellation from 5 to 3,
a new icosphere is constructed but no destroy of the old icosphere object
(generation `initialState.icoGen`) ever appears among the tick's GPU
events: the old icosphere's GPU resources are not discarded, contrary to
the claim. -/
theorem c3_counterexample :
    ({ tesselations := 3, shape := "icosphere", shaderName := "lambert",
        lambertR := 200, lambertG := 25, lambertB := 25 } :
      Controls).tesselations ≠ initialState.prevTesselations ∧
    GpuOp.icoNew (initialState.icoGen + 1) (0, 0, 0) 1 3 ∈
      (tick initialState
        { tesselations := 3, shape := "icosphere", shaderName := "lambert",
          lambertR := 200, lambertG := 25, lambertB := 25 }).ops ∧
    GpuOp.icoDestroy initialState.icoGen ∉
      (tick initialState
        { tesselations := 3, shape := "icosphere", shaderName := "lambert",
          lambertR := 200, lambertG := 25, lambertB := 25 }).ops := by
  decide

/-- C3, amended: on every tick where the tessellation control differs from
the previously rendered value, a new icosphere is constructed at the new
subdivision level with the same center `(0,0,0)` and radius `1`, but the
old icosphere is never destroyed: no destroy event for the old object is
emitted, and if it still held GPU buffers they are leaked. -/
theorem c3_regen_constructs_without_destroy (s : MainState) (c : Controls)
    (h : c.tesselations ≠ s.prevTesselations) :
    GpuOp.icoNew (s.icoGen + 1) (0, 0, 0) 1 c.tesselations ∈
      (tick s c).ops ∧
    GpuOp.icoDestroy s.icoGen ∉ (tick s c).ops ∧
    (tick s c).state.ico = ⟨(0, 0, 0), 1, c.tesselations⟩ ∧
    (tick s c).state.leaked = s.leaked + s.icoAlive.toNat :=
  tick_regen_detail h

/-- C3, witness for the amended theorem: the 5-to-3 change on the freshly
loaded scene. -/
theorem c3_regen_constructs_without_destroy_witness :
    GpuOp.icoNew (initialState.icoGen + 1) (0, 0, 0) 1 3 ∈
      (tick initialState
        { tesselations := 3, shape := "cube", shaderName := "noise",
          lambertR := 10, lambertG := 20, lambertB := 30 }).ops ∧
    GpuOp.icoDestroy initialState.icoGen ∉
      (tick initialState
        { tesselations := 3, shape := "cube", shaderName := "noise",
          lambertR := 10, lambertG := 20, lambertB := 30 }).ops ∧
    (tick initialState
      { tesselations := 3, shape := "cube", shaderName := "noise",
        lambertR := 10, lambertG := 20, lambertB := 30 }).state.ico =
      ⟨(0, 0, 0), 1, 3⟩ ∧
    (tick initialState
      { tesselations := 3, shape := "cube", shaderName := "noise",
        lambertR := 10, lambertG := 20, lambertB := 30 }).state.leaked =
      initialState.leaked + initialState.icoAlive.toNat :=
  c3_regen_constructs_without_destroy initialState _ (by decide)

/-- C4: with the tessellation control unchanged and recognized selector
values, the shape and shader selectors are applied fresh on every tick: a
tick with shape `icosphere` leaves the icosphere holding GPU buffers and
the cube released, and symmetrically for `cube`; and the total GPU
resource count after a run with any number of shape switches equals the
count after the zero-switch run (no leak from switching). -/
theorem c4_switch_releases_and_reacquires (s : MainState) (c : Controls)
    (cs : List Controls)
    (hc : (shapeRecognized c ∧ shaderRecognized c) ∧
      c.tesselations = s.prevTesselations)
    (hcs : ∀ c' ∈ cs, (shapeRecognized c' ∧ shaderRecognized c') ∧
      c'.tesselations = c.tesselations) :
    gpuCount (runEnd s (c :: cs)) = gpuCount (runEnd s [c]) ∧
    (c.shape = "icosphere" → (tick s c).state.icoAlive = true ∧
      (tick s c).state.cubeAlive = false) ∧
    (c.shape = "cube" → (tick s c).state.cubeAlive = true ∧
      (tick s c).state.icoAlive = false) := by
  have hs : s.prevTesselations = c.tesselations := hc.2.symm
  have h1 : gpuCount (runEnd s (c :: cs)) =
      s.leaked + s.squareAlive.toNat + 1 :=
    runEnd_gpu (c :: cs) s (by simp) hs
      (by
        intro c' hc'
        rcases List.mem_cons.mp hc' with rfl | hc'
        · exact ⟨hc.1, rfl⟩
        · exact hcs c' hc')
  have h2 : gpuCount (runEnd s [c]) =
      s.leaked + s.squareAlive.toNat + 1 :=
    runEnd_gpu [c] s (by simp) hs
      (by
        intro c' hc'
        rcases List.mem_cons.mp hc' with rfl | hc'
        · exact ⟨hc.1, rfl⟩
        · simp at hc')
  exact ⟨by rw [h1, h2], fun h => tick_shape_icosphere h s,
    fun h => tick_shape_cube h s⟩

/-- C4, witness: two shape switches (icosphere, cube, icosphere) at
constant tessellation leave the same GPU resource count as no switch. -/
theorem c4_switch_releases_and_reacquires_witness :
    gpuCount (runEnd initialState (initialControls ::
      [{ tesselations := 5, shape := "cube", shaderName := "noise",
         lambertR := 1, lambertG := 2, lambertB := 3 }, initialControls])) =
      gpuCount (runEnd initialState [initialControls]) ∧
    (initialControls.shape = "icosphere" →
      (tick initialState initialControls).state.icoAlive = true ∧
      (tick initialState initialControls).state.cubeAlive = false) ∧
    (initialControls.shape = "cube" →
      (tick initialState initialControls).state.cubeAlive = true ∧
      (tick initialState initialControls).state.icoAlive = false) :=
  c4_switch_releases_and_reacquires initialState initialControls
    [{ tesselations := 5, shape := "cube", shaderName := "noise",
       lambertR := 1, lambertG := 2, lambertB := 3 }, initialControls]
    (by decide) (by decide)

/-- C5: for every subdivision level the generated icosphere has exactly
`20·4^L` triangular faces and every vertex lies at distance `r` from the
center `C` (exact real arithmetic idealizing the floating-point epsilon);
in particular level 0 yields 12 vertices and 20 faces and level 1 yields
42 vertices and 80 faces (shared edge midpoints are cached, never
duplicated). -/
theorem c5_icosphere_contract (C : E3) (r : ℝ) (L : ℕ) (hr : 0 ≤ r) :
    (icosphereMesh C r L).faces.length = 20 * 4 ^ L ∧
    (∀ v ∈ (icosphereMesh C r L).verts, dist v C = r) ∧
    (icosphereMesh C r 0).verts.length = 12 ∧
    (icosphereMesh C r 0).faces.length = 20 ∧
    (icosphereMesh C r 1).verts.length = 42 ∧
    (icosphereMesh C r 1).faces.length = 80 := by
  refine ⟨icosphereMesh_faces_len C r L, icosphereMesh_dist C r hr L,
    ?_, ?_, ?_, ?_⟩
  · rw [icosphereMesh_verts_len, skeletonN_zero_verts]
  · rw [icosphereMesh_faces_len]
    norm_num
  · rw [icosphereMesh_verts_len, skeletonN_one_verts]
  · rw [icosphereMesh_faces_len]
    norm_num

/-- C5, witness: the unit icosphere about the origin at level 2. -/
theorem c5_icosphere_contract_witness :
    (icosphereMesh 0 1 2).faces.length = 20 * 4 ^ 2 ∧
    (∀ v ∈ (icosphereMesh 0 1 2).verts, dist v 0 = 1) ∧
    (icosphereMesh 0 1 0).verts.length = 12 ∧
    (icosphereMesh 0 1 0).faces.length = 20 ∧
    (icosphereMesh 0 1 1).verts.length = 42 ∧
    (icosphereMesh 0 1 1).faces.length = 80 :=
  c5_icosphere_contract 0 1 2 (by norm_num)

/-- C6: invoking the `Load Scene` action (the `Load Scene` button is among
the GUI widgets) reconstructs all three shapes from scratch: a fresh
icosphere object at center `(0,0,0)`, radius `1` and the current
tessellation control value, a fresh square and a fresh cube, each holding
GPU buffers after its build step. -/
theorem c6_load_scene_reconstructs (s : MainState) (c : Controls) :
    (loadScene s c).ico = ⟨(0, 0, 0), 1, c.tesselations⟩ ∧
    (loadScene s c).icoGen = s.icoGen + 1 ∧
    (loadScene s c).icoAlive = true ∧
    (loadScene s c).cubeAlive = true ∧
    (loadScene s c).squareAlive = true ∧
    Widget.button "Load Scene" ∈ guiWidgets :=
  ⟨rfl, rfl, rfl, rfl, rfl, by decide⟩

/-- C7: the GUI exposes exactly one tessellation slider with range 0-8 and
step 1 plus three RGB sliders with range 0-255 and step 1 (and no other
slider), and exactly one shape selector with options icosphere and cube
plus one shader selector with options lambert, fixed gradient and noise
(and no other selector). -/
theorem c7_gui_widgets :
    guiWidgets.filter Widget.isSlider =
      [Widget.slider "tesselations" 0 8 1, Widget.slider "lambertR" 0 255 1,
       Widget.slider "lambertG" 0 255 1, Widget.slider "lambertB" 0 255 1] ∧
    guiWidgets.filter Widget.isSelector =
      [Widget.selector "shape" ["icosphere", "cube"],
       Widget.selector "shaderName"
         ["lambert", "fixed gradient", "noise"]] := by
  decide

/-- C8: starting from the freshly loaded scene, the frame counters passed
to the renderer (the last `render` argument) along any run are exactly
`0, 1, 2, ...`: the counter starts at 0 on the first frame and increases
by exactly 1 with every further draw. -/
theorem c8_frame_counter (cs : List Controls) :
    (traceDraws (runTrace initialState cs)).map DrawCall.time =
      List.range (traceDraws (runTrace initialState cs)).length := by
  have h := traceDraws_times cs initialState
  rw [show initialState.time = 0 from rfl] at h
  rw [h, List.range_eq_range']

/-- C9: when WebGL 2 is unsupported the startup issues exactly one
user-facing alert with the fixed message, makes exactly one context
request (no retry), and no alert appears when the context exists. -/
theorem c9_webgl_alert :
    (mainStartup false).alerts = [webglAlertMsg] ∧
    (mainStartup false).alerts.length = 1 ∧
    (mainStartup false).contextRequests = 1 ∧
    (mainStartup true).alerts = [] :=
  ⟨rfl, rfl, rfl, rfl⟩

/-- C10: every draw call a tick issues carries the color override
`(lambertR/255, lambertG/255, lambertB/255, 1)` computed from the controls
read that frame; its alpha component is always 1. -/
theorem c10_color_override (s : MainState) (c : Controls) (d : DrawCall)
    (h : (tick s c).draw = Except.ok d) :
    d.color = (c.lambertR / 255, c.lambertG / 255, c.lambertB / 255, 1) ∧
    d.color.2.2.2 = 1 := by
  have hcol : d.color =
      (c.lambertR / 255, c.lambertG / 255, c.lambertB / 255, 1) := by
    revert h
    unfold tick shapeStage createStage
    by_cases h1 : c.shape = "icosphere" <;> by_cases h2 : c.shape = "cube" <;>
      rcases hsh : shaderStage c with _ | sp <;>
      simp [h1, h2, hsh] <;>
      intro hd <;> rw [← hd]
  exact ⟨hcol, by rw [hcol]⟩

/-- C10, witness: the first tick of the freshly loaded scene draws with
color `(200/255, 25/255, 25/255, 1)`. -/
theorem c10_color_override_witness :
    ({ shader := ShaderProg.lambert,
       drawables := [DrawableId.icosphere 1],
       color := (200 / 255, 25 / 255, 25 / 255, 1),
       time := 0 } : DrawCall).color =
      (initialControls.lambertR / 255, initialControls.lambertG / 255,
        initialControls.lambertB / 255, 1) ∧
    ({ shader := ShaderProg.lambert,
       drawables := [DrawableId.icosphere 1],
       color := (200 / 255, 25 / 255, 25 / 255, 1),
       time := 0 } : DrawCall).color.2.2.2 = 1 :=
  c10_color_override initialState initialControls _ (by
    simp [tick, tessStage, shapeStage, shaderStage, createStage,
      initialState, loadScene, emptyState, initialControls])
